import Mathlib

/-!
Shallow embedding of the `tye_home` application core (src/app.rs, src/logger.rs):
the page/layout persistence keying scheme, the application state container with
its switch-page protocol, the log bridge, and the ring buffer of recent logs.
Rust `f32` values are modelled as `ℚ`; the program never computes with them,
it only stores, copies and resets them, so the carrier only needs decidable
equality and the concrete literal `3.1415926`.
-/

set_option autoImplicit false

namespace TyeHome

/-! ### Log levels (the `log` crate's `Level` and `LevelFilter`) -/

/-- The five severity levels of the `log` crate; `Error` is the most severe.
The crate orders them by their numeric value (Error = 1 ... Trace = 5). -/
inductive Level where
  | error
  | warn
  | info
  | debug
  | trace
  deriving DecidableEq

/-- Numeric value of a `Level`, matching the `log` crate (`Error = 1`). -/
def Level.toNat : Level → Nat
  | .error => 1
  | .warn => 2
  | .info => 3
  | .debug => 4
  | .trace => 5

/-- Display name of a `Level`, matching the `log` crate's `Display`. -/
def Level.name : Level → String
  | .error => "ERROR"
  | .warn => "WARN"
  | .info => "INFO"
  | .debug => "DEBUG"
  | .trace => "TRACE"

/-- The `log` crate's `LevelFilter` (`Off = 0`, then the five levels). -/
inductive LevelFilter where
  | off
  | error
  | warn
  | info
  | debug
  | trace
  deriving DecidableEq

/-- Numeric value of a `LevelFilter`, matching the `log` crate. -/
def LevelFilter.toNat : LevelFilter → Nat
  | .off => 0
  | .error => 1
  | .warn => 2
  | .info => 3
  | .debug => 4
  | .trace => 5

/-- `logger.rs`: `pub type Transmitted = (log::Level, String);` -/
abbrev Transmitted := Level × String

/-! ### The log bridge (src/logger.rs) -/

/-- A log record as seen by the sink: its level and its formatted message. -/
structure LogRecord where
  level : Level
  message : String
  deriving DecidableEq

/-- The repository's `Logger`.  The `web_logger` (console sink) and the
channel sender are modelled by the outputs of `Logger.log` below, so only the
configured filter is state. -/
structure Logger where
  filter : LevelFilter

/-- `Logger::enabled`: `metadata.level() <= self.filter` (the `log` crate
compares a `Level` with a `LevelFilter` by numeric value). -/
def Logger.enabled (lg : Logger) (level : Level) : Bool :=
  level.toNat ≤ lg.filter.toNat

/-- The warning record built in `Logger::log` when the channel send fails. -/
def warnRecord : LogRecord :=
  ⟨Level.warn, "Unable to send previous log to application."⟩

/-- `Logger::log`.  `receiverConnected` is the state of the mpsc channel's
receiving end.  Returns the records handed to the console sink
(`web_logger.log`) and the pairs sent into the channel, in order: the record
always goes to the console first; the channel send succeeds only while the
receiver is connected; on a failed send a single warning record goes to the
console sink only, and the send is not retried. -/
def Logger.log (lg : Logger) (receiverConnected : Bool) (r : LogRecord) :
    List LogRecord × List Transmitted :=
  match lg, receiverConnected with
  | _, true => ([r], [(r.level, r.message)])
  | _, false => ([r, warnRecord], [])

/-- `Logger::init`: installs the logger and calls
`log::set_max_level(filter)`; returns the configured maximum level together
with the installed logger (the receiver end is handed to the caller). -/
def Logger.init (filter : LevelFilter) : LevelFilter × Logger :=
  (filter, ⟨filter⟩)

/-- Emission of a record through the `log` crate's macros (external crate,
modelled from its documented contract): the macro compares the record's level
against the global maximum level (`log::max_level()`, set by `Logger::init`)
and only then dispatches to the installed sink's `log` method. -/
def emit (maxLevel : LevelFilter) (lg : Logger) (receiverConnected : Bool)
    (r : LogRecord) : List LogRecord × List Transmitted :=
  if r.level.toNat ≤ maxLevel.toNat then lg.log receiverConnected r
  else ([], [])

/-! ### Pages and their payloads (src/app.rs) -/

/-- `pub const STORAGE_KEY: &str = "tye_home";` -/
def STORAGE_KEY : String := "tye_home"

/-- `pub const LAYOUT_KEY: &str = "tye_home-Layout";` -/
def LAYOUT_KEY : String := "tye_home-Layout"

/-- The `Example` page payload.  `value` is an `f32` in the source, modelled
as `ℚ`; the field carries the `#[serde(skip)]` attribute. -/
structure Example where
  label : String
  value : ℚ
  deriving DecidableEq

/-- `impl Default for Example`. -/
def Example.default : Example :=
  ⟨"Hello world!", 31415926 / 10000000⟩

/-- The data for the possible pages (`enum PageData`). -/
inductive PageData where
  | Home
  | Example (e : TyeHome.Example)
  deriving DecidableEq

/-- The kind enum generated by `kinded` for `PageData` (`kind = Page`). -/
inductive Page where
  | Home
  | Example
  deriving DecidableEq, Fintype

/-- `PageData::kind()`, generated by the `kinded` derive. -/
def PageData.kind : PageData → Page
  | .Home => .Home
  | .Example _ => .Example

/-- `impl Default for PageData { fn default() -> Self { Self::Home } }` -/
def PageData.default : PageData := .Home

/-- `impl Into<PageData> for Page`: each kind's respective default payload. -/
def Page.intoPageData : Page → PageData
  | .Home => .Home
  | .Example => .Example Example.default

/-- The `Display` of a `Page` value, generated by `kinded` (variant name). -/
def Page.name : Page → String
  | .Home => "Home"
  | .Example => "Example"

/-- `page_storage_key!`: `format!{"{STORAGE_KEY}-{}", page}`. -/
def pageStorageKey (p : Page) : String :=
  STORAGE_KEY ++ "-" ++ p.name

/-! ### Layouts -/

/-- `enum LayoutData { Desktop {}, Mobile { tabs_open: bool } }`. -/
inductive LayoutData where
  | Desktop
  | Mobile (tabs_open : Bool)
  deriving DecidableEq

/-- The kind enum generated by `kinded` for `LayoutData`. -/
inductive Layout where
  | Desktop
  | Mobile
  deriving DecidableEq

/-- `LayoutData::kind()`. -/
def LayoutData.kind : LayoutData → Layout
  | .Desktop => .Desktop
  | .Mobile _ => .Mobile

/-- `impl Default for LayoutData`. -/
def LayoutData.default : LayoutData := .Desktop

/-! ### Serialization (serde + eframe's set_value/get_value)

Serialized values are modelled structurally: a stored blob either is the
serde image of one of the three persisted types or is junk that fails to
deserialize as any of them. -/

/-- Serde image of a `PageData`.  The `value` field of `Example` carries
`#[serde(skip)]` and is absent from the image. -/
inductive SerPage where
  | Home
  | Example (label : String)
  deriving DecidableEq

/-- The kind a serialized page deserializes to. -/
def SerPage.kind : SerPage → Page
  | .Home => .Home
  | .Example _ => .Example

/-- Serde image of a `LayoutData` (no skipped fields). -/
inductive SerLayout where
  | Desktop
  | Mobile (tabs_open : Bool)
  deriving DecidableEq

/-- Serde image of a `MyApp`: `logs` and `log_receiver` carry
`#[serde(skip)]` and are absent. -/
structure SerApp where
  page_data : SerPage
  layout : SerLayout
  debug_window : Bool
  deriving DecidableEq

/-- A stored blob: the image of one of the persisted types, or malformed. -/
inductive SerValue where
  | page (p : SerPage)
  | layout (l : SerLayout)
  | app (a : SerApp)
  | junk
  deriving DecidableEq

/-- serde serialization of a `PageData` (skipping `Example.value`). -/
def PageData.serialize : PageData → SerPage
  | .Home => .Home
  | .Example e => .Example e.label

/-- serde deserialization of a page image.  `Example` carries the
container-level `#[serde(default)]`, so the skipped `value` field is filled
from `Example::default()`. -/
def SerPage.deserialize : SerPage → PageData
  | .Home => .Home
  | .Example l => .Example ⟨l, Example.default.value⟩

/-- serde serialization of a `LayoutData`. -/
def LayoutData.serialize : LayoutData → SerLayout
  | .Desktop => .Desktop
  | .Mobile b => .Mobile b

/-- serde deserialization of a layout image. -/
def SerLayout.deserialize : SerLayout → LayoutData
  | .Desktop => .Desktop
  | .Mobile b => .Mobile b

/-! ### Storage (eframe's key/value store) -/

/-- The external key/value storage collaborator, as an association list;
`set` prepends and `get` returns the most recent binding. -/
abbrev Storage := List (String × SerValue)

/-- `get(key)`: the most recently stored blob under `key`, if any. -/
def Storage.get : Storage → String → Option SerValue
  | [], _ => none
  | (k', v) :: rest, k => if k' = k then some v else Storage.get rest k

/-- `set(key, value)`. -/
def Storage.set (s : Storage) (k : String) (v : SerValue) : Storage :=
  (k, v) :: s

/-- `eframe::get_value::<PageData>`: read and deserialize; `none` when the
key is absent or the blob is malformed for this type. -/
def getValuePage (s : Storage) (key : String) : Option PageData :=
  match s.get key with
  | some (SerValue.page p) => some p.deserialize
  | _ => none

/-- `eframe::get_value::<LayoutData>`. -/
def getValueLayout (s : Storage) (key : String) : Option LayoutData :=
  match s.get key with
  | some (SerValue.layout l) => some l.deserialize
  | _ => none

/-- A frame's storage handle: `frame.storage()` may be unavailable. -/
abbrev Frame := Option Storage

/-! ### Save / load of page data, with their log lines -/

/-- The log lines emitted by `PageData::save` and `Page::load`, kept
structurally (format argument rather than formatted text). -/
inductive SaveLoadLog where
  | savingPath (key : String)
  | savingData (data : PageData)
  | saveError (key : String)
  | loadingPath (key : String)
  | loadingData (data : PageData)
  deriving DecidableEq

/-- Severity of each `save`/`load` log line (`log::debug!` / `log::error!`). -/
def SaveLoadLog.level : SaveLoadLog → Level
  | .saveError _ => .error
  | _ => .debug

/-- `PageData::save`: compute the key from `self.kind()`, then write the
serialized payload if a storage handle exists, else log an error and drop
the save.  Returns the (possibly updated) frame and the emitted log lines. -/
def PageData.save (pd : PageData) (frame : Frame) : Frame × List SaveLoadLog :=
  let key := pageStorageKey pd.kind
  match frame with
  | some storage =>
      (some (storage.set key (SerValue.page pd.serialize)),
       [SaveLoadLog.savingPath key, SaveLoadLog.savingData pd])
  | none => (none, [SaveLoadLog.savingPath key, SaveLoadLog.saveError key])

/-- `Page::load`: with a storage handle, `eframe::get_value(storage, key)`
followed by `.unwrap_or_default()` (the `Default` of `PageData`, i.e.
`Home`); without one, `self.into()` (the kind's own default payload). -/
def Page.load (p : Page) (frame : Frame) : PageData × List SaveLoadLog :=
  let key := pageStorageKey p
  match frame with
  | some storage =>
      let pd := (getValuePage storage key).getD PageData.default
      (pd, [SaveLoadLog.loadingPath key, SaveLoadLog.loadingData pd])
  | none => (p.intoPageData, [SaveLoadLog.loadingPath key])

/-! ### The ring buffer of recent logs (`circular_queue::CircularQueue`) -/

/-- The `circular_queue` crate's queue (external crate, modelled from its
documented ring-buffer semantics): fixed capacity, push overwrites the
oldest entry when full.  `data` holds the retained entries in insertion
order, oldest first. -/
structure CircularQueue where
  capacity : Nat
  data : List String
  deriving DecidableEq

/-- `CircularQueue::with_capacity`. -/
def CircularQueue.withCapacity (n : Nat) : CircularQueue := ⟨n, []⟩

/-- `CircularQueue::push`: appends; when the queue is full the oldest entry
is evicted first (a zero-capacity queue stores nothing). -/
def CircularQueue.push (q : CircularQueue) (x : String) : CircularQueue :=
  if q.capacity = 0 then q
  else if q.data.length < q.capacity then ⟨q.capacity, q.data ++ [x]⟩
  else ⟨q.capacity, q.data.tail ++ [x]⟩

/-! ### The application state container (`MyApp`) -/

/-- `struct MyApp`.  `log_receiver` is the receiving end of the log channel,
modelled as the queue of pending `Transmitted` messages (when present). -/
structure MyApp where
  page_data : PageData
  debug_window : Bool
  layout : LayoutData
  logs : CircularQueue
  log_receiver : Option (List Transmitted)
  deriving DecidableEq

/-- `impl Default for MyApp`. -/
def MyApp.default : MyApp :=
  { page_data := PageData.Home
    debug_window := false
    layout := LayoutData.Desktop
    logs := CircularQueue.withCapacity 16
    log_receiver := none }

/-- `MyApp::page()`. -/
def MyApp.page (app : MyApp) : Page := app.page_data.kind

/-- `MyApp::switch_page`: saves the current `PageData`, then loads the
`PageData` for the given `Page`; returns the new state, the frame after the
save, and the log lines of both calls in order. -/
def MyApp.switch_page (app : MyApp) (page : Page) (frame : Frame) :
    MyApp × Frame × List SaveLoadLog :=
  let s := app.page_data.save frame
  let l := page.load s.1
  ({ app with page_data := l.1 }, s.1, s.2 ++ l.2)

/-- serde deserialization of a whole-app image: skipped fields (`logs`,
`log_receiver`) are filled from `MyApp::default()` via the container-level
`#[serde(default)]`. -/
def SerApp.deserialize (a : SerApp) : MyApp :=
  { page_data := a.page_data.deserialize
    debug_window := a.debug_window
    layout := a.layout.deserialize
    logs := CircularQueue.withCapacity 16
    log_receiver := none }

/-- `eframe::get_value::<MyApp>`. -/
def getValueApp (s : Storage) (key : String) : Option MyApp :=
  match s.get key with
  | some (SerValue.app a) => some a.deserialize
  | _ => none

/-- `enum InitError { StorageError() }`. -/
inductive InitError where
  | StorageError
  deriving DecidableEq

/-- `MyApp::new`: fails with `InitError::StorageError` when the creation
context has no storage handle; otherwise loads the whole-state blob under
`STORAGE_KEY`, falling back to a default state whose layout comes from
`LAYOUT_KEY` if stored, else from the mobile-detection signal
(`js_imports::is_mobile`, an external boolean, passed as `isMobile`);
finally installs the given log receiver. -/
def MyApp.new (storageHandle : Option Storage) (isMobile : Bool)
    (log_receiver : Option (List Transmitted)) : Except InitError MyApp :=
  match storageHandle with
  | none => Except.error InitError.StorageError
  | some storage =>
      let app :=
        match getValueApp storage STORAGE_KEY with
        | some app => app
        | none =>
            let layout := (getValueLayout storage LAYOUT_KEY).getD
              (if isMobile then LayoutData.Mobile false else LayoutData.Desktop)
            { MyApp.default with layout := layout }
      Except.ok { app with log_receiver := log_receiver }

/-- `eframe::App::save` for `MyApp`: the whole state under `STORAGE_KEY`. -/
def MyApp.appSave (app : MyApp) (storage : Storage) : Storage :=
  storage.set STORAGE_KEY
    (SerValue.app ⟨app.page_data.serialize, app.layout.serialize, app.debug_window⟩)

/-- The formatted ring-buffer line of `MyApp::update`:
`format!("{}: {}\n", level, text)`. -/
def formatLogLine (t : Transmitted) : String :=
  t.1.name ++ ": " ++ t.2 ++ "\n"

/-- The log-drain tail of `MyApp::update`: one non-blocking receive; on a
message, push its formatted line into the ring buffer. -/
def MyApp.drainLog (app : MyApp) : MyApp :=
  match app.log_receiver with
  | some (t :: rest) =>
      { app with logs := app.logs.push (formatLogLine t), log_receiver := some rest }
  | some [] => app
  | none => app

/-- A storage is well formed when every blob stored under a page's key that
parses as page data is data of that same page kind — the invariant every
store performed by `PageData::save` maintains, since it keys the blob by
`self.kind()`. -/
def Storage.wellFormed (s : Storage) : Prop :=
  ∀ (k : Page) (sp : SerPage),
    s.get (pageStorageKey k) = some (SerValue.page sp) → sp.kind = k

end TyeHome

namespace TyeHome

/-! ### Helper lemmas about the storage model -/

theorem Storage.get_set_self (s : Storage) (k : String) (v : SerValue) :
    (s.set k v).get k = some v := by
  simp [Storage.set, Storage.get]

theorem Storage.get_set_ne (s : Storage) (k k' : String) (v : SerValue)
    (h : k ≠ k') : (s.set k v).get k' = s.get k' := by
  simp [Storage.set, Storage.get, h]

theorem getValuePage_set_page (s : Storage) (k : String) (sp : SerPage) :
    getValuePage (s.set k (SerValue.page sp)) k = some sp.deserialize := by
  simp [getValuePage, Storage.get_set_self]

theorem getValuePage_set_ne (s : Storage) (k k' : String) (v : SerValue)
    (h : k ≠ k') : getValuePage (s.set k v) k' = getValuePage s k' := by
  simp [getValuePage, Storage.get_set_ne s k k' v h]

theorem getValuePage_eq_some {s : Storage} {k : String} {pd : PageData}
    (h : getValuePage s k = some pd) :
    ∃ sp : SerPage, s.get k = some (SerValue.page sp) ∧ pd = sp.deserialize := by
  revert h
  unfold getValuePage
  cases hg : s.get k with
  | none => intro h; cases h
  | some v =>
      cases v with
      | page sp =>
          intro h
          refine ⟨sp, rfl, ?_⟩
          cases h
          rfl
      | layout l => intro h; cases h
      | app a => intro h; cases h
      | junk => intro h; cases h

theorem pageStorageKey_inj :
    ∀ k1 k2 : Page, k1 ≠ k2 → pageStorageKey k1 ≠ pageStorageKey k2 := by
  decide

/-- On a well-formed storage, loading the `Home` key never yields an
`Example` payload: the `getD` fallback or the stored blob both give `Home`. -/
theorem wf_get_home {storage : Storage} (hwf : storage.wellFormed) :
    (getValuePage storage (pageStorageKey Page.Home)).getD PageData.default
      = PageData.Home := by
  cases hq : getValuePage storage (pageStorageKey Page.Home) with
  | none => rfl
  | some pd =>
      obtain ⟨sp, hget, hpd⟩ := getValuePage_eq_some hq
      have hk := hwf Page.Home sp hget
      cases sp with
      | Home => simp [hpd, SerPage.deserialize]
      | Example l => simp [SerPage.kind] at hk

end TyeHome

namespace TyeHome

/-! ### Claim theorems -/

/-- C5: the storage-key function is the deterministic string
`"{STORAGE_KEY}-{kind}"`; equal kinds give equal keys and distinct kinds give
distinct keys. -/
theorem C5_storage_key_deterministic_and_injective :
    (∀ k1 k2 : Page, k1 = k2 → pageStorageKey k1 = pageStorageKey k2) ∧
    (∀ k1 k2 : Page, k1 ≠ k2 → pageStorageKey k1 ≠ pageStorageKey k2) ∧
    (∀ k : Page, pageStorageKey k = STORAGE_KEY ++ "-" ++ k.name) := by
  decide

/-- Witness for C5 at concrete kinds: the two page kinds give distinct keys,
and equal kinds give the same key. -/
theorem C5_storage_key_witness :
    pageStorageKey Page.Home ≠ pageStorageKey Page.Example :=
  C5_storage_key_deterministic_and_injective.2.1 Page.Home Page.Example (by decide)

/-- C2: evaluating `Page::load` at the failing input.  With a storage handle
present but no value (or a malformed value) under the `Example` key,
`load` returns `PageData::Home` — the `Default` of `PageData` chosen by
`unwrap_or_default()` — and not the structural default payload of the
`Example` kind (`label = "Hello world!"`, `value = 3.1415926`) that the
no-storage branch (`self.into()`) produces. -/
theorem C2_load_example_empty_storage_is_home :
    (Page.Example.load (some [])).1 = PageData.Home ∧
    (Page.Example.load
        (some [(pageStorageKey Page.Example, SerValue.junk)])).1 = PageData.Home ∧
    Page.Example.intoPageData
      = PageData.Example ⟨"Hello world!", 31415926 / 10000000⟩ ∧
    (Page.Example.load (some [])).1 ≠ Page.Example.intoPageData := by
  refine ⟨rfl, ?_, rfl, ?_⟩
  · simp [Page.load, getValuePage, Storage.get, PageData.default]
  · simp [Page.load, Page.intoPageData, getValuePage, Storage.get,
          PageData.default]

/-- C3: a record whose level is below the configured minimum severity is not
accepted by the emission pipeline (the `log` facade's maximum level is set to
the filter by `Logger::init`): it reaches neither the console sink nor the
channel. -/
theorem C3_severity_filter_blocks_record (filter : LevelFilter)
    (connected : Bool) (r : LogRecord)
    (h : (Logger.init filter).2.enabled r.level = false) :
    emit (Logger.init filter).1 (Logger.init filter).2 connected r
      = ([], []) := by
  simp only [Logger.init, Logger.enabled, decide_eq_false_iff_not] at h
  simp only [emit, Logger.init]
  exact if_neg h

/-- Witness for C3: with the filter set to `Warn`, an `Info` record is
disabled and produces zero messages on either sink. -/
theorem C3_severity_filter_witness :
    (Logger.init LevelFilter.warn).2.enabled Level.info = false ∧
    emit (Logger.init LevelFilter.warn).1 (Logger.init LevelFilter.warn).2
      true ⟨Level.info, "message"⟩ = ([], []) :=
  ⟨by decide,
   C3_severity_filter_blocks_record LevelFilter.warn true
     ⟨Level.info, "message"⟩ (by decide)⟩

/-- C4: for every accepted record, when the channel's receiving end has been
dropped the logger still hands the record to the console sink, sends nothing
on the channel (no retry), and emits exactly one additional warning record to
the console sink only; the computation is total (no panic). -/
theorem C4_silent_channel_failure (filter : LevelFilter) (r : LogRecord)
    (h : (Logger.init filter).2.enabled r.level = true) :
    emit (Logger.init filter).1 (Logger.init filter).2 false r
      = ([r, warnRecord], []) := by
  simp only [Logger.init, Logger.enabled, decide_eq_true_eq] at h
  simp only [emit, Logger.init]
  rw [if_pos h]
  rfl

/-- Witness for C4: an `Info` record under a `Trace` filter,
with the receiver dropped. -/
theorem C4_silent_channel_failure_witness :
    (Logger.init LevelFilter.trace).2.enabled Level.info = true ∧
    emit (Logger.init LevelFilter.trace).1 (Logger.init LevelFilter.trace).2
      false ⟨Level.info, "message"⟩
      = ([⟨Level.info, "message"⟩, warnRecord], []) :=
  ⟨by decide,
   C4_silent_channel_failure LevelFilter.trace ⟨Level.info, "message"⟩ (by decide)⟩

/-- C7: the `value` field of the `Example` payload is excluded from
persistence while `label` is persisted: saving any `Example` payload and
loading the `Example` kind back from that storage yields the saved label and
the structural default `value = 3.1415926`, whatever the value at save
time. -/
theorem C7_value_not_persisted (l : String) (v : ℚ) (storage : Storage) :
    (Page.Example.load ((PageData.Example ⟨l, v⟩).save (some storage)).1).1
      = PageData.Example ⟨l, 31415926 / 10000000⟩ := by
  simp [PageData.save, Page.load, PageData.kind, PageData.serialize,
        getValuePage_set_page, SerPage.deserialize, Example.default,
        PageData.default]

/-- C9: `switch_page` modifies only the `page_data` field: `debug_window`,
`layout`, `logs` and `log_receiver` are unchanged for every state, target
kind and frame. -/
theorem C9_switch_page_frame_effect (app : MyApp) (p : Page) (frame : Frame) :
    ((app.switch_page p frame).1.debug_window = app.debug_window) ∧
    ((app.switch_page p frame).1.layout = app.layout) ∧
    ((app.switch_page p frame).1.logs = app.logs) ∧
    ((app.switch_page p frame).1.log_receiver = app.log_receiver) :=
  ⟨rfl, rfl, rfl, rfl⟩

/-- C8: construction with no storage handle fails with the distinguished
`InitError::StorageError`; a runtime `save` with no storage handle returns
normally (no error value in its type), leaves the frame unchanged (the save
is dropped), and emits an error-severity log line. -/
theorem C8_storage_error_policy :
    (∀ (isMobile : Bool) (rcv : Option (List Transmitted)),
        MyApp.new none isMobile rcv = Except.error InitError.StorageError) ∧
    (∀ pd : PageData,
        (pd.save none).1 = none ∧
        (pd.save none).2
          = [SaveLoadLog.savingPath (pageStorageKey pd.kind),
             SaveLoadLog.saveError (pageStorageKey pd.kind)] ∧
        SaveLoadLog.level (SaveLoadLog.saveError (pageStorageKey pd.kind))
          = Level.error) :=
  ⟨fun _ _ => rfl, fun _ => ⟨rfl, rfl, rfl⟩⟩

end TyeHome

namespace TyeHome

/-- C10: when no whole-state blob parses under `STORAGE_KEY`, `MyApp::new`
returns the default state with the layout taken from `LAYOUT_KEY` if a layout
value is stored there, else from the mobile-detection signal; the page is
`Home`, the debug window closed, and the given receiver installed. -/
theorem C10_default_construction (storage : Storage) (isMobile : Bool)
    (rcv : Option (List Transmitted))
    (h : getValueApp storage STORAGE_KEY = none) :
    MyApp.new (some storage) isMobile rcv = Except.ok
      { page_data := PageData.Home
        debug_window := false
        layout := (getValueLayout storage LAYOUT_KEY).getD
          (if isMobile then LayoutData.Mobile false else LayoutData.Desktop)
        logs := CircularQueue.withCapacity 16
        log_receiver := rcv } := by
  simp [MyApp.new, h, MyApp.default]

/-- Witness for C10: empty storage on a mobile host with no receiver. -/
theorem C10_default_construction_witness :
    getValueApp [] STORAGE_KEY = none ∧
    MyApp.new (some []) true none = Except.ok
      { page_data := PageData.Home
        debug_window := false
        layout := LayoutData.Mobile false
        logs := CircularQueue.withCapacity 16
        log_receiver := none } := by
  refine ⟨rfl, ?_⟩
  have h := C10_default_construction [] true none rfl
  simpa [getValueLayout, Storage.get] using h

end TyeHome

namespace TyeHome

/-- Contents of the ring buffer after any sequence of pushes: the most
recent `capacity` entries of `ds ++ xs`, in insertion order. -/
theorem foldl_push_data (xs : List String) : ∀ (ds : List String) (c : Nat),
    0 < c → ds.length ≤ c →
    (xs.foldl CircularQueue.push ⟨c, ds⟩).data
      = (ds ++ xs).drop (ds.length + xs.length - c) := by
  induction xs with
  | nil =>
      intro ds c _ hlen
      simp [Nat.sub_eq_zero_of_le hlen]
  | cons x xs ih =>
      intro ds c hc hlen
      rw [List.foldl_cons]
      by_cases hlt : ds.length < c
      · have hpush : CircularQueue.push ⟨c, ds⟩ x = ⟨c, ds ++ [x]⟩ := by
          simp [CircularQueue.push, Nat.pos_iff_ne_zero.mp hc, hlt]
        rw [hpush, ih (ds ++ [x]) c hc (by simp; omega)]
        rw [List.append_assoc, List.singleton_append]
        congr 1
        simp
        omega
      · have heq : ds.length = c := le_antisymm hlen (not_lt.mp hlt)
        have hpush : CircularQueue.push ⟨c, ds⟩ x = ⟨c, ds.tail ++ [x]⟩ := by
          simp [CircularQueue.push, Nat.pos_iff_ne_zero.mp hc, hlt]
        cases ds with
        | nil =>
            exfalso
            simp at heq
            omega
        | cons d ds' =>
            rw [hpush]
            simp only [List.tail_cons]
            rw [ih (ds' ++ [x]) c hc (by simp at heq ⊢; omega)]
            rw [List.append_assoc, List.singleton_append]
            have h1 : (ds' ++ [x]).length + xs.length - c = xs.length := by
              simp at heq ⊢
              omega
        
            have h2 : (d :: ds').length + (x :: xs).length - c
                = xs.length + 1 := by
              simp at heq ⊢
              omega
            rw [h1, h2, List.cons_append, List.drop_succ_cons]

/-- C6: the recent-logs buffer of `MyApp` is a ring buffer of capacity 16:
pushing any 20 lines into the initially empty buffer leaves exactly the 16
most recent lines, oldest evicted first, in insertion order; and no sequence
of pushes makes it exceed 16 entries. -/
theorem C6_ring_buffer_bound (xs : List String) (h : xs.length = 20) :
    (xs.foldl CircularQueue.push MyApp.default.logs).data = xs.drop 4 ∧
    ∀ ys : List String,
      ((ys.foldl CircularQueue.push MyApp.default.logs).data).length ≤ 16 := by
  constructor
  · have hfold := foldl_push_data xs [] 16 (by omega) (by simp)
    simpa [MyApp.default, CircularQueue.withCapacity, h] using hfold
  · intro ys
    have hfold := foldl_push_data ys [] 16 (by omega) (by simp)
    have hgoal :
        (ys.foldl CircularQueue.push ⟨16, []⟩).data
          = ys.drop (ys.length - 16) := by simpa using hfold
    show ((ys.foldl CircularQueue.push ⟨16, []⟩).data).length ≤ 16
    rw [hgoal]
    simp
    omega

/-- Witness for C6: twenty concrete lines leave the sixteen most recent. -/
theorem C6_ring_buffer_bound_witness :
    (List.replicate 20 "line").length = 20 ∧
    ((List.replicate 20 "line").foldl CircularQueue.push
        MyApp.default.logs).data = (List.replicate 20 "line").drop 4 :=
  ⟨by simp, (C6_ring_buffer_bound (List.replicate 20 "line") (by simp)).1⟩

end TyeHome

namespace TyeHome

theorem getValuePage_nil (k : String) : getValuePage [] k = none := rfl

/-- C1 counterexample: the claim as stated fails because `Example.value` is
`#[serde(skip)]`.  Starting from the `Example` page with payload
`{label: "hi", value: 0}` on empty storage, `switch_page(Home)` followed by
`switch_page(Example)` yields `{label: "hi", value: 3.1415926}`, not the
original payload `p`. -/
theorem C1_roundtrip_counterexample :
    (((({ MyApp.default with
          page_data := PageData.Example ⟨"hi", 0⟩ }).switch_page Page.Home
            (some [])).1.switch_page Page.Example
          (({ MyApp.default with
              page_data := PageData.Example ⟨"hi", 0⟩ }).switch_page Page.Home
            (some [])).2.1).1).page_data
      ≠ PageData.Example ⟨"hi", 0⟩ := by
  have hne : pageStorageKey Page.Home ≠ pageStorageKey Page.Example :=
    pageStorageKey_inj Page.Home Page.Example (by decide)
  simp only [MyApp.switch_page, PageData.save, Page.load, PageData.kind,
             PageData.serialize, PageData.default, SerPage.deserialize,
             getValuePage_set_page, getValuePage_nil,
             getValuePage_set_ne _ _ _ _ hne,
             getValuePage_set_ne _ _ _ _ (Ne.symm hne),
             Option.getD_some, Option.getD_none]
  simp only [ne_eq, PageData.Example.injEq, Example.mk.injEq, Example.default,
             not_and, true_implies]
  norm_num

/-- C1 (amended): on a well-formed storage (every blob stored under a page
key that parses as page data has that page's kind — the invariant `save`
maintains), `switch_page(B)` followed by `switch_page(A)` (where `A` is the
original page's kind) restores the persisted projection of the original
payload: the serde roundtrip of `p`, i.e. `p` itself for `Home`, and for
`Example` the saved label together with the structural default `value`.
Save precedes load: the first switch's save is what the second switch's load
finds. -/
theorem C1_switch_restores_persisted_payload (app : MyApp) (storage : Storage)
    (B : Page) (hwf : storage.wellFormed) :
    (((app.switch_page B (some storage)).1.switch_page app.page_data.kind
        (app.switch_page B (some storage)).2.1).1).page_data
      = app.page_data.serialize.deserialize := by
  have hne : pageStorageKey Page.Home ≠ pageStorageKey Page.Example :=
    pageStorageKey_inj Page.Home Page.Example (by decide)
  cases hpd : app.page_data with
  | Home =>
      cases B with
      | Home =>
          simp [MyApp.switch_page, PageData.save, Page.load, hpd,
                PageData.kind, PageData.serialize, SerPage.deserialize,
                getValuePage_set_page, PageData.default]
      | Example =>
          simp only [MyApp.switch_page, PageData.save, Page.load, hpd,
                     PageData.kind, PageData.serialize]
          rw [getValuePage_set_ne _ _ _ _ hne]
          cases hq : getValuePage storage (pageStorageKey Page.Example) with
          | none =>
              simp [PageData.default, PageData.kind, getValuePage_set_page,
                    SerPage.deserialize]
          | some pdq =>
              obtain ⟨sp, hget, hpq⟩ := getValuePage_eq_some hq
              have hk := hwf Page.Example sp hget
              cases sp with
              | Home => simp [SerPage.kind] at hk
              | Example l' =>
                  subst hpq
                  simp [SerPage.deserialize, PageData.kind,
                        getValuePage_set_ne _ _ _ _ (Ne.symm hne),
                        getValuePage_set_page]
  | Example e =>
      cases B with
      | Home =>
          simp only [MyApp.switch_page, PageData.save, Page.load, hpd,
                     PageData.kind, PageData.serialize]
          rw [getValuePage_set_ne _ _ _ _ (Ne.symm hne)]
          have hhome := wf_get_home hwf
          rw [hhome]
          simp [PageData.kind, getValuePage_set_ne _ _ _ _ hne,
                getValuePage_set_page, SerPage.deserialize]
      | Example =>
          simp [MyApp.switch_page, PageData.save, Page.load, hpd,
                PageData.kind, PageData.serialize, SerPage.deserialize,
                getValuePage_set_page, PageData.default]

/-- Witness for C1 (amended) at a concrete state: the `Example` page with
label `"hi"` and value `2`, empty storage, switching to `Home` and back. -/
theorem C1_switch_restores_witness :
    Storage.wellFormed [] ∧
    (((({ MyApp.default with
          page_data := PageData.Example ⟨"hi", 2⟩ }).switch_page Page.Home
            (some [])).1.switch_page Page.Example
          (({ MyApp.default with
              page_data := PageData.Example ⟨"hi", 2⟩ }).switch_page Page.Home
            (some [])).2.1).1).page_data
      = PageData.Example ⟨"hi", 31415926 / 10000000⟩ := by
  have hwf : Storage.wellFormed [] := by
    intro k sp h
    simp [Storage.get] at h
  refine ⟨hwf, ?_⟩
  have happ := C1_switch_restores_persisted_payload
      { MyApp.default with page_data := PageData.Example ⟨"hi", 2⟩ }
      [] Page.Home hwf
  simpa [PageData.kind, PageData.serialize, SerPage.deserialize,
         Example.default] using happ

end TyeHome
